import Mathlib

/-!
Verification of the Moré–Thuente line-search kernel of NLP.py.

The development shallowly embeds, over `ℚ`:
* `dcstep`  — the safeguarded interpolation step
  (`nlp/ls/src/_strong_wolfe_linesearch.pyx`),
* `dcsrch`  — the reverse-communication driver around it (same file),
* `mcstep` / the relevant branch of `mcsrch` — the older MINPACK-style
  variant found in the repository.

The C `sqrt` routine is an external dependency of the source, so every
function that uses it is parametrised by a square-root function
`sq : ℚ → ℚ`; theorems that do not depend on the value of the square
root are stated for every `sq`, and concrete evaluations instantiate
`sq` with `ratSqrt`, which is exact on the perfect squares they hit.
-/

/-- Rational square root, exact on quotients of perfect squares
(all concrete inputs below have discriminant `1`). -/
def ratSqrt (q : ℚ) : ℚ := (Nat.sqrt q.num.toNat : ℚ) / (Nat.sqrt q.den : ℚ)

/-- The eight input-validation failures tested in the `START` block of
`dcsrch` (source lines 344–351), in source order. -/
inductive ErrKind where
  | stpLtStpmin
  | stpGtStpmax
  | initialG
  | negFtol
  | negGtol
  | negXtol
  | negStpmin
  | stpmaxLtStpmin
deriving DecidableEq, Repr

/-- The `task` strings of `dcsrch`, as a tagged type: `start` and `fg`
(request for an evaluation), the four warnings in source order,
convergence, and the input errors. -/
inductive LSTask where
  | start
  | fg
  | conv
  | warnRounding
  | warnXtol
  | warnStpmax
  | warnStpmin
  | error (k : ErrKind)
deriving DecidableEq, Repr

/-- `task[0:4] == 'WARN'` of the source. -/
def LSTask.isWarn : LSTask → Bool
  | .warnRounding => true
  | .warnXtol => true
  | .warnStpmax => true
  | .warnStpmin => true
  | _ => false

/-- `task[0:5] == 'ERROR'` of the source. -/
def LSTask.isError : LSTask → Bool
  | .error _ => true
  | _ => false

/-- Output tuple of `dcstep` (source line 226):
`stx, fx, dx, sty, fy, dy, stp, brackt`. -/
@[ext] structure DCStepOut where
  stx : ℚ
  fx : ℚ
  dx : ℚ
  sty : ℚ
  fy : ℚ
  dy : ℚ
  stp : ℚ
  brackt : Bool
deriving DecidableEq, Repr

/-- The trial-step computation of `dcstep` (`stpf`, source lines 90–207):
the four interpolation cases.  `sq` stands for the C `sqrt`. -/
def dcstepStpf (sq : ℚ → ℚ) (stx fx dx sty fy dy stp fp dp : ℚ)
    (brackt : Bool) (stpmin stpmax : ℚ) : ℚ :=
  let sgnd := dp * (dx / |dx|)
  if fp > fx then
    -- First case: a higher function value; the minimum is bracketed.
    let theta := 3 * (fx - fp) / (stp - stx) + dx + dp
    let s := max |theta| (max |dx| |dp|)
    let gamma0 := s * sq ((theta / s) ^ 2 - (dx / s) * (dp / s))
    let gamma := if stp < stx then -gamma0 else gamma0
    let p := (gamma - dx) + theta
    let q := ((gamma - dx) + gamma) + dp
    let r := p / q
    let stpc := stx + r * (stp - stx)
    let stpq := stx + ((dx / ((fx - fp) / (stp - stx) + dx)) / 2) * (stp - stx)
    if |stpc - stx| < |stpq - stx| then stpc else stpc + (stpq - stpc) / 2
  else if sgnd < 0 then
    -- Second case: lower value, derivatives of opposite sign.
    let theta := 3 * (fx - fp) / (stp - stx) + dx + dp
    let s := max |theta| (max |dx| |dp|)
    let gamma0 := s * sq ((theta / s) ^ 2 - (dx / s) * (dp / s))
    let gamma := if stp > stx then -gamma0 else gamma0
    let p := (gamma - dp) + theta
    let q := ((gamma - dp) + gamma) + dx
    let r := p / q
    let stpc := stp + r * (stx - stp)
    let stpq := stp + (dp / (dp - dx)) * (stx - stp)
    if |stpc - stp| > |stpq - stp| then stpc else stpq
  else if |dp| < |dx| then
    -- Third case: lower value, same-sign derivatives, |dp| < |dx|.
    let theta := 3 * (fx - fp) / (stp - stx) + dx + dp
    let s := max |theta| (max |dx| |dp|)
    let gamma0 := s * sq (max 0 ((theta / s) ^ 2 - (dx / s) * (dp / s)))
    let gamma := if stp > stx then -gamma0 else gamma0
    let p := (gamma - dp) + theta
    let q := (gamma + (dx - dp)) + gamma
    let r := p / q
    let stpc :=
      if r < 0 ∧ gamma ≠ 0 then stp + r * (stx - stp)
      else if stp > stx then stpmax
      else stpmin
    let stpq := stp + (dp / (dp - dx)) * (stx - stp)
    if brackt = true then
      let stpf := if |stpc - stp| < |stpq - stp| then stpc else stpq
      if stp > stx then min (stp + 0.66 * (sty - stp)) stpf
      else max (stp + 0.66 * (sty - stp)) stpf
    else
      let stpf := if |stpc - stp| > |stpq - stp| then stpc else stpq
      max stpmin (min stpmax stpf)
  else
    -- Fourth case: lower value, same-sign derivatives, |dp| ≥ |dx|.
    if brackt = true then
      let theta := 3 * (fp - fy) / (sty - stp) + dy + dp
      let s := max |theta| (max |dy| |dp|)
      let gamma0 := s * sq ((theta / s) ^ 2 - (dy / s) * (dp / s))
      let gamma := if stp > sty then -gamma0 else gamma0
      let p := (gamma - dp) + theta
      let q := ((gamma - dp) + gamma) + dy
      let r := p / q
      stp + r * (sty - stp)
    else if stp > stx then stpmax
    else stpmin

/-- `dcstep` (source lines 9–226): computes the new trial step through
`dcstepStpf` and updates the interval (lines 210–224).  The source
performs no validation of its inputs. -/
def dcstep (sq : ℚ → ℚ) (stx fx dx sty fy dy stp fp dp : ℚ)
    (brackt : Bool) (stpmin stpmax : ℚ) : DCStepOut :=
  let sgnd := dp * (dx / |dx|)
  let stpf := dcstepStpf sq stx fx dx sty fy dy stp fp dp brackt stpmin stpmax
  if fp > fx then
    { stx := stx, fx := fx, dx := dx, sty := stp, fy := fp, dy := dp,
      stp := stpf, brackt := true }
  else if sgnd < 0 then
    { stx := stp, fx := fp, dx := dp, sty := stx, fy := fx, dy := dx,
      stp := stpf, brackt := true }
  else
    { stx := stp, fx := fp, dx := dp, sty := sty, fy := fy, dy := dy,
      stp := stpf, brackt := brackt }

/-- Output tuple of `mcstep` (part_004 line 196):
`stx, fx, dx, sty, fy, dy, stp, fp, dp, brackt, info`. -/
@[ext] structure McStepOut where
  stx : ℚ
  fx : ℚ
  dx : ℚ
  sty : ℚ
  fy : ℚ
  dy : ℚ
  stp : ℚ
  fp : ℚ
  dp : ℚ
  brackt : Bool
  info : ℤ
deriving DecidableEq, Repr

/-- `mcstep` (part_004 lines 10–196): like `dcstep` but with an input
guard (lines 60–62) returning every input unchanged with `info = 0`,
the final clamp of the step into `[stpmin, stpmax]`, and the
66%-safeguard applied after the clamp when `brackt ∧ bound`. -/
def mcstep (sq : ℚ → ℚ) (stx fx dx sty fy dy stp fp dp : ℚ)
    (brackt : Bool) (stpmin stpmax : ℚ) : McStepOut :=
  if (brackt = true ∧ (stp ≤ min stx sty ∨ stp ≥ max stx sty)) ∨
      dx * (stp - stx) ≥ 0 ∨ stpmax < stpmin then
    { stx := stx, fx := fx, dx := dx, sty := sty, fy := fy, dy := dy,
      stp := stp, fp := fp, dp := dp, brackt := brackt, info := 0 }
  else
    let sgnd := dp * (dx / |dx|)
    let info : ℤ :=
      if fp > fx then 1 else if sgnd < 0 then 2
      else if |dp| < |dx| then 3 else 4
    let bound : Bool :=
      if fp > fx then true else if sgnd < 0 then false
      else if |dp| < |dx| then true else false
    let stpF :=
      if fp > fx then
        let theta := 3 * (fx - fp) / (stp - stx) + dx + dp
        let s := max |theta| (max |dx| |dp|)
        let gamma0 := s * sq ((theta / s) ^ 2 - (dx / s) * (dp / s))
        let gamma := if stp < stx then -gamma0 else gamma0
        let p := (gamma - dx) + theta
        let q := ((gamma - dx) + gamma) + dp
        let r := p / q
        let stpC := stx + r * (stp - stx)
        let stpQ := stx + ((dx / ((fx - fp) / (stp - stx) + dx)) / 2) * (stp - stx)
        if |stpC - stx| < |stpQ - stx| then stpC else stpC + (stpQ - stpC) / 2
      else if sgnd < 0 then
        let theta := 3 * (fx - fp) / (stp - stx) + dx + dp
        let s := max |theta| (max |dx| |dp|)
        let gamma0 := s * sq ((theta / s) ^ 2 - (dx / s) * (dp / s))
        let gamma := if stp > stx then -gamma0 else gamma0
        let p := (gamma - dp) + theta
        let q := ((gamma - dp) + gamma) + dx
        let r := p / q
        let stpC := stp + r * (stx - stp)
        let stpQ := stp + (dp / (dp - dx)) * (stx - stp)
        if |stpC - stp| > |stpQ - stp| then stpC else stpQ
      else if |dp| < |dx| then
        let theta := 3 * (fx - fp) / (stp - stx) + dx + dp
        let s := max |theta| (max |dx| |dp|)
        let gamma0 := s * sq (max 0 ((theta / s) ^ 2 - (dx / s) * (dp / s)))
        let gamma := if stp > stx then -gamma0 else gamma0
        let p := (gamma - dp) + theta
        let q := (gamma + (dx - dp)) + gamma
        let r := p / q
        let stpC :=
          if r < 0 ∧ gamma ≠ 0 then stp + r * (stx - stp)
          else if stp > stx then stpmax
          else stpmin
        let stpQ := stp + (dp / (dp - dx)) * (stx - stp)
        if brackt = true then
          if |stp - stpC| < |stp - stpQ| then stpC else stpQ
        else
          if |stp - stpC| > |stp - stpQ| then stpC else stpQ
      else
        if brackt = true then
          let theta := 3 * (fp - fy) / (sty - stp) + dy + dp
          let s := max |theta| (max |dy| |dp|)
          let gamma0 := s * sq ((theta / s) ^ 2 - (dy / s) * (dp / s))
          let gamma := if stp > sty then -gamma0 else gamma0
          let p := (gamma - dp) + theta
          let q := ((gamma - dp) + gamma) + dy
          let r := p / q
          stp + r * (sty - stp)
        else if stp > stx then stpmax
        else stpmin
    let brackt' := if fp > fx then true else if sgnd < 0 then true else brackt
    let stx' := if fp > fx then stx else stp
    let fx' := if fp > fx then fx else fp
    let dx' := if fp > fx then dx else dp
    let sty' := if fp > fx then stp else if sgnd < 0 then stx else sty
    let fy' := if fp > fx then fp else if sgnd < 0 then fx else fy
    let dy' := if fp > fx then dp else if sgnd < 0 then dx else dy
    let stpF2 := max stpmin (min stpmax stpF)
    let stp' :=
      if brackt' = true ∧ bound = true then
        if sty' > stx' then min (stx' + 0.66 * (sty' - stx')) stpF2
        else max (stx' + 0.66 * (sty' - stx')) stpF2
      else stpF2
    { stx := stx', fx := fx', dx := dx', sty := sty', fy := fy', dy := dy',
      stp := stp', fp := fp, dp := dp, brackt := brackt', info := info }

/-- The locals of `mcsrch` that its call to `mcstep` reads and writes. -/
@[ext] structure McsrchVars where
  stx : ℚ
  fx : ℚ
  dgx : ℚ
  sty : ℚ
  fy : ℚ
  dgy : ℚ
  stp : ℚ
  f : ℚ
  dg : ℚ
  brackt : Bool
  infoc : ℤ
deriving DecidableEq, Repr

/-- The non-modified (else) branch of `mcsrch` (part_004 line 494).  The
eleven destructuring targets there are
`stx, fx, dgx, sty, dy, dgy, stp, f, dg, brackt, infoc`: the fifth
target is the otherwise-unused name `dy`, not `fy`, so the stored `fy`
keeps its entry value. -/
def mcsrchDirectBranch (sq : ℚ → ℚ) (v : McsrchVars) (stmin stmax : ℚ) :
    McsrchVars :=
  let m := mcstep sq v.stx v.fx v.dgx v.sty v.fy v.dgy v.stp v.f v.dg
    v.brackt stmin stmax
  { stx := m.stx, fx := m.fx, dgx := m.dx, sty := m.sty,
    fy := v.fy,  -- `m.fy` is bound to the local `dy`, not to `fy`
    dgy := m.dy, stp := m.stp, f := m.fp, dg := m.dp,
    brackt := m.brackt, infoc := m.info }

/-- The saved state of `dcsrch`: `isave` (brackt, stage) and `dsave`
in source order (lines 511–523). -/
@[ext] structure LSState where
  brackt : Bool
  stage : ℕ
  ginit : ℚ
  gtest : ℚ
  gx : ℚ
  gy : ℚ
  finit : ℚ
  fx : ℚ
  fy : ℚ
  stx : ℚ
  sty : ℚ
  stmin : ℚ
  stmax : ℚ
  width : ℚ
  width1 : ℚ
deriving DecidableEq, Repr

/-- Result of one `dcsrch` call after `START`: the new trial step, the
task, and the saved state. -/
@[ext] structure StepResult where
  stp : ℚ
  task : LSTask
  state : LSState
deriving DecidableEq, Repr

/-- Result of a `dcsrch` call: the step, the task, and the saved state
(`none` when nothing was saved, i.e. on a `START` input error). -/
@[ext] structure DcsrchResult where
  stp : ℚ
  task : LSTask
  st : Option LSState
deriving DecidableEq, Repr

/-- The eight sequential error checks of the `START` block (source
lines 344–351); a later failing check overwrites the message of an
earlier one. -/
def startChecks (stp g ftol gtol xtol stpmin stpmax : ℚ) : LSTask :=
  let t1 := if stp < stpmin then LSTask.error .stpLtStpmin else LSTask.start
  let t2 := if stp > stpmax then LSTask.error .stpGtStpmax else t1
  let t3 := if g ≥ 0 then LSTask.error .initialG else t2
  let t4 := if ftol < 0 then LSTask.error .negFtol else t3
  let t5 := if gtol < 0 then LSTask.error .negGtol else t4
  let t6 := if xtol < 0 then LSTask.error .negXtol else t5
  let t7 := if stpmin < 0 then LSTask.error .negStpmin else t6
  if stpmax < stpmin then LSTask.error .stpmaxLtStpmin else t7

/-- The `START` block of `dcsrch` (source lines 341–386): validate,
and either return the errors without saving state, or initialize the
state and request the first evaluation (`FG`) with `stp` unchanged. -/
def dcsrchStart (stp f g ftol gtol xtol stpmin stpmax : ℚ) : DcsrchResult :=
  let t := startChecks stp g ftol gtol xtol stpmin stpmax
  if t.isError = true then { stp := stp, task := t, st := none }
  else
    { stp := stp, task := LSTask.fg,
      st := some
        { brackt := false, stage := 1, ginit := g, gtest := ftol * g,
          gx := g, gy := g, finit := f, fx := f, fy := f,
          stx := 0, sty := 0, stmin := 0, stmax := stp + 4 * stp,
          width := stpmax - stpmin, width1 := (stpmax - stpmin) / 0.5 } }

/-- The warning and convergence tests of a subsequent `dcsrch` call
(source lines 416–428): four sequential warning `if`s, each
overwriting the previous task, then the convergence test overwriting
any warning. -/
def taskAfterTests (gtol xtol stpmin stpmax : ℚ) (taskIn : LSTask)
    (s : LSState) (stp f g ftest : ℚ) : LSTask :=
  let t1 := if s.brackt = true ∧ (stp ≤ s.stmin ∨ stp ≥ s.stmax) then
    LSTask.warnRounding else taskIn
  let t2 := if s.brackt = true ∧ s.stmax - s.stmin ≤ xtol * s.stmax then
    LSTask.warnXtol else t1
  let t3 := if stp = stpmax ∧ f ≤ ftest ∧ g ≤ s.gtest then
    LSTask.warnStpmax else t2
  let t4 := if stp = stpmin ∧ (f > ftest ∨ g ≥ s.gtest) then
    LSTask.warnStpmin else t3
  if f ≤ ftest ∧ |g| ≤ gtol * (-s.ginit) then LSTask.conv else t4

/-- The interpolation call of `dcsrch` (source lines 442–462): in
stage 1, when `f ≤ fx` but the decrease is insufficient, `dcstep` runs
on the modified function `ψ` and the shift is undone afterwards using
the updated `stx`, `sty`; otherwise `dcstep` runs on `f` directly. -/
def interpState (sq : ℚ → ℚ) (s : LSState) (stage' : ℕ)
    (ftest stp f g : ℚ) : DCStepOut :=
  if stage' = 1 ∧ f ≤ s.fx ∧ f > ftest then
    let d := dcstep sq s.stx (s.fx - s.stx * s.gtest) (s.gx - s.gtest)
      s.sty (s.fy - s.sty * s.gtest) (s.gy - s.gtest)
      stp (f - stp * s.gtest) (g - s.gtest) s.brackt s.stmin s.stmax
    { d with fx := d.fx + d.stx * s.gtest, fy := d.fy + d.sty * s.gtest,
             dx := d.dx + s.gtest, dy := d.dy + s.gtest }
  else
    dcstep sq s.stx s.fx s.gx s.sty s.fy s.gy stp f g s.brackt s.stmin s.stmax

/-- The tail of a subsequent `dcsrch` call (source lines 464–495):
bisection guard, dynamic bounds, clamp into `[stpmin, stpmax]`,
replacement by `stx` when further progress is impossible, and the
state save with task `FG`. -/
def dcsrchProceed (xtol stpmin stpmax : ℚ) (s : LSState) (stage' : ℕ)
    (d : DCStepOut) : StepResult :=
  let stp2 := if d.brackt = true ∧ |d.sty - d.stx| ≥ 0.66 * s.width1 then
    d.stx + 0.5 * (d.sty - d.stx) else d.stp
  let width1' := if d.brackt = true then s.width else s.width1
  let width' := if d.brackt = true then |d.sty - d.stx| else s.width
  let stmin' := if d.brackt = true then min d.stx d.sty
    else stp2 + 1.1 * (stp2 - d.stx)
  let stmax' := if d.brackt = true then max d.stx d.sty
    else stp2 + 4 * (stp2 - d.stx)
  let stp3 := min (max stp2 stpmin) stpmax
  let stp4 :=
    if (d.brackt = true ∧ (stp3 ≤ stmin' ∨ stp3 ≥ stmax')) ∨
        (d.brackt = true ∧ stmax' - stmin' ≤ xtol * stmax') then d.stx
    else stp3
  { stp := stp4, task := LSTask.fg,
    state :=
      { brackt := d.brackt, stage := stage', ginit := s.ginit,
        gtest := s.gtest, gx := d.dx, gy := d.dy, finit := s.finit,
        fx := d.fx, fy := d.fy, stx := d.stx, sty := d.sty,
        stmin := stmin', stmax := stmax', width := width',
        width1 := width1' } }

/-- A subsequent (non-`START`) call of `dcsrch` (source lines 388–495):
stage transition, warning/convergence tests with early terminal
return, then interpolation and the safeguarding tail. -/
def dcsrchStep (sq : ℚ → ℚ) (ftol gtol xtol stpmin stpmax : ℚ)
    (taskIn : LSTask) (s : LSState) (stp f g : ℚ) : StepResult :=
  let ftest := s.finit + stp * s.gtest
  let stage' := if s.stage = 1 ∧ f ≤ ftest ∧ g ≥ 0 then 2 else s.stage
  let t := taskAfterTests gtol xtol stpmin stpmax taskIn s stp f g ftest
  if t.isWarn = true ∨ t = LSTask.conv then
    { stp := stp, task := t, state := { s with stage := stage' } }
  else
    dcsrchProceed xtol stpmin stpmax s stage'
      (interpState sq s stage' ftest stp f g)

/-- `dcsrch` as a whole: dispatch on the entry task (`START` versus a
reverse-communication re-entry with a saved state). -/
def dcsrch (sq : ℚ → ℚ) (stp f g ftol gtol xtol : ℚ) (task : LSTask)
    (stpmin stpmax : ℚ) (s : LSState) : DcsrchResult :=
  if task = LSTask.start then dcsrchStart stp f g ftol gtol xtol stpmin stpmax
  else
    let r := dcsrchStep sq ftol gtol xtol stpmin stpmax task s stp f g
    { stp := r.stp, task := r.task, st := some r.state }

/-- Modelled from the spec: the Case-3 step of §4.1 as the spec words
it — clamped discriminant, fallback to `stpmax`/`stpmin` when the
cubic minimizer does not lie in the search direction (`r ≥ 0` or
`gamma = 0`), the closer of cubic and secant with the 66% projection
when bracketed, the farther clamped into `[stpmin, stpmax]` when
not.  To be compared with `dcstepStpf`. -/
def case3StepSpec (sq : ℚ → ℚ) (stx fx dx sty stp fp dp : ℚ)
    (brackt : Bool) (stpmin stpmax : ℚ) : ℚ :=
  let theta := 3 * (fx - fp) / (stp - stx) + dx + dp
  let s := max |theta| (max |dx| |dp|)
  let gamma0 := s * sq (max 0 ((theta / s) ^ 2 - (dx / s) * (dp / s)))
  let gamma := if stp > stx then -gamma0 else gamma0
  let r := ((gamma - dp) + theta) / ((gamma + (dx - dp)) + gamma)
  let stpc :=
    if 0 ≤ r ∨ gamma = 0 then (if stp > stx then stpmax else stpmin)
    else stp + r * (stx - stp)
  let stpq := stp + (dp / (dp - dx)) * (stx - stp)
  let closer := if |stpc - stp| < |stpq - stp| then stpc else stpq
  let farther := if |stpc - stp| > |stpq - stp| then stpc else stpq
  if brackt = true then
    if stp > stx then min (stp + 0.66 * (sty - stp)) closer
    else max (stp + 0.66 * (sty - stp)) closer
  else
    max stpmin (min stpmax farther)

/-! ## Helper lemmas -/

theorem dcsrchProceed_task (xtol stpmin stpmax : ℚ) (s : LSState)
    (stage' : ℕ) (d : DCStepOut) :
    (dcsrchProceed xtol stpmin stpmax s stage' d).task = LSTask.fg := rfl

theorem dcsrchProceed_state_stx (xtol stpmin stpmax : ℚ) (s : LSState)
    (stage' : ℕ) (d : DCStepOut) :
    (dcsrchProceed xtol stpmin stpmax s stage' d).state.stx = d.stx := rfl

theorem isError_ite (c : Prop) [Decidable c] (k : ErrKind) (t : LSTask) :
    ((if c then LSTask.error k else t).isError = true) ↔
      (c ∨ t.isError = true) := by
  split_ifs with h <;> simp [LSTask.isError, h]

theorem startChecks_isError_iff (stp g ftol gtol xtol stpmin stpmax : ℚ) :
    (startChecks stp g ftol gtol xtol stpmin stpmax).isError = true ↔
      (stp < stpmin ∨ stp > stpmax ∨ g ≥ 0 ∨ ftol < 0 ∨ gtol < 0 ∨
        xtol < 0 ∨ stpmin < 0 ∨ stpmax < stpmin) := by
  unfold startChecks
  simp only [isError_ite, show (LSTask.start.isError = true) ↔ False from
    by simp [LSTask.isError]]
  tauto

/-! ## Claim C7 -/

/-- Claim C7: on a `START` call, `dcsrch` returns an `ERROR` status exactly
when one of the eight listed violations holds; in that case it returns
`stp` unchanged without writing the saved state; otherwise it initializes
the state exactly as listed and returns `stp` unchanged with status `FG`
(`NEED_EVAL`). -/
theorem dcsrchStart_spec (stp f g ftol gtol xtol stpmin stpmax : ℚ) :
    ((dcsrchStart stp f g ftol gtol xtol stpmin stpmax).task.isError = true ↔
      (stp < stpmin ∨ stp > stpmax ∨ g ≥ 0 ∨ ftol < 0 ∨ gtol < 0 ∨
        xtol < 0 ∨ stpmin < 0 ∨ stpmax < stpmin)) ∧
    (dcsrchStart stp f g ftol gtol xtol stpmin stpmax).stp = stp ∧
    ((stp < stpmin ∨ stp > stpmax ∨ g ≥ 0 ∨ ftol < 0 ∨ gtol < 0 ∨
        xtol < 0 ∨ stpmin < 0 ∨ stpmax < stpmin) →
      (dcsrchStart stp f g ftol gtol xtol stpmin stpmax).st = none) ∧
    (¬(stp < stpmin ∨ stp > stpmax ∨ g ≥ 0 ∨ ftol < 0 ∨ gtol < 0 ∨
        xtol < 0 ∨ stpmin < 0 ∨ stpmax < stpmin) →
      (dcsrchStart stp f g ftol gtol xtol stpmin stpmax).task = LSTask.fg ∧
      (dcsrchStart stp f g ftol gtol xtol stpmin stpmax).st = some
        { brackt := false, stage := 1, ginit := g, gtest := ftol * g,
          gx := g, gy := g, finit := f, fx := f, fy := f,
          stx := 0, sty := 0, stmin := 0, stmax := stp + 4 * stp,
          width := stpmax - stpmin, width1 := 2 * (stpmax - stpmin) }) := by
  by_cases hE : (stp < stpmin ∨ stp > stpmax ∨ g ≥ 0 ∨ ftol < 0 ∨ gtol < 0 ∨
      xtol < 0 ∨ stpmin < 0 ∨ stpmax < stpmin)
  · have he : (startChecks stp g ftol gtol xtol stpmin stpmax).isError = true :=
      (startChecks_isError_iff stp g ftol gtol xtol stpmin stpmax).mpr hE
    simp only [dcsrchStart]
    rw [if_pos he]
    exact ⟨⟨fun _ => hE, fun _ => he⟩, rfl, fun _ => rfl, fun h => absurd hE h⟩
  · have he : ¬(startChecks stp g ftol gtol xtol stpmin stpmax).isError = true :=
      fun h => hE ((startChecks_isError_iff stp g ftol gtol xtol stpmin stpmax).mp h)
    simp only [dcsrchStart]
    rw [if_neg he]
    refine ⟨?_, rfl, fun h => absurd h hE, fun _ => ⟨rfl, ?_⟩⟩
    · simpa [LSTask.isError] using hE
    · simp only [Option.some.injEq, LSState.mk.injEq, and_true, true_and]
      rw [show (0.5 : ℚ) = 1 / 2 by norm_num]
      ring

/-- Witness for C7: a valid `START` call is accepted: no error, `stp`
returned unchanged, state initialized. -/
theorem dcsrchStart_spec_witness :
    (dcsrchStart 1 5 (-1) (1/10) (1/5) (1/1000) 0 10).stp = 1 :=
  (dcsrchStart_spec 1 5 (-1) (1/10) (1/5) (1/1000) 0 10).2.1

theorem taskAfterTests_conv (gtol xtol stpmin stpmax : ℚ) (taskIn : LSTask)
    (s : LSState) (stp f g ftest : ℚ)
    (h : f ≤ ftest ∧ |g| ≤ gtol * (-s.ginit)) :
    taskAfterTests gtol xtol stpmin stpmax taskIn s stp f g ftest =
      LSTask.conv := by
  unfold taskAfterTests
  rw [if_pos h]

theorem taskAfterTests_of_not_conv (gtol xtol stpmin stpmax : ℚ)
    (taskIn : LSTask) (s : LSState) (stp f g ftest : ℚ)
    (h : ¬(f ≤ ftest ∧ |g| ≤ gtol * (-s.ginit))) :
    taskAfterTests gtol xtol stpmin stpmax taskIn s stp f g ftest =
      (if stp = stpmin ∧ (f > ftest ∨ g ≥ s.gtest) then LSTask.warnStpmin
       else if stp = stpmax ∧ f ≤ ftest ∧ g ≤ s.gtest then LSTask.warnStpmax
       else if s.brackt = true ∧ s.stmax - s.stmin ≤ xtol * s.stmax then
         LSTask.warnXtol
       else if s.brackt = true ∧ (stp ≤ s.stmin ∨ stp ≥ s.stmax) then
         LSTask.warnRounding
       else taskIn) := by
  unfold taskAfterTests
  rw [if_neg h]

/-! ## Claim C1 -/

/-- Claim C1: on a non-`START` call (protocol re-entry task `FG`) the
returned status is `CONVERGED` if and only if
`f ≤ finit + stp·ftol·ginit ∧ |g| ≤ gtol·(−ginit)`, irrespective of any
warning condition (convergence overrides every warning); and on
`CONVERGED` the returned step is the entry `stp`, so it satisfies both
the sufficient-decrease and the strong curvature condition. -/
theorem dcsrch_conv_characterization (sq : ℚ → ℚ)
    (ftol gtol xtol stpmin stpmax : ℚ) (s : LSState) (stp f g : ℚ)
    (hg : s.gtest = ftol * s.ginit) :
    ((dcsrchStep sq ftol gtol xtol stpmin stpmax LSTask.fg s stp f g).task =
        LSTask.conv ↔
      (f ≤ s.finit + stp * (ftol * s.ginit) ∧ |g| ≤ gtol * (-s.ginit))) ∧
    ((dcsrchStep sq ftol gtol xtol stpmin stpmax LSTask.fg s stp f g).task =
        LSTask.conv →
      (dcsrchStep sq ftol gtol xtol stpmin stpmax LSTask.fg s stp f g).stp =
        stp ∧
      f ≤ s.finit +
        (dcsrchStep sq ftol gtol xtol stpmin stpmax LSTask.fg s stp f g).stp *
          (ftol * s.ginit) ∧
      |g| ≤ gtol * (-s.ginit)) := by
  rw [← hg]
  by_cases hC : f ≤ s.finit + stp * s.gtest ∧ |g| ≤ gtol * (-s.ginit)
  · have ht := taskAfterTests_conv gtol xtol stpmin stpmax LSTask.fg s stp f g
      (s.finit + stp * s.gtest) hC
    simp only [dcsrchStep]
    rw [ht]
    rw [if_pos (Or.inr rfl :
      LSTask.conv.isWarn = true ∨ LSTask.conv = LSTask.conv)]
    exact ⟨⟨fun _ => hC, fun _ => rfl⟩, fun _ => ⟨rfl, hC.1, hC.2⟩⟩
  · have ht := taskAfterTests_of_not_conv gtol xtol stpmin stpmax LSTask.fg
      s stp f g (s.finit + stp * s.gtest) hC
    simp only [dcsrchStep]
    rw [ht]
    split_ifs <;>
      simp_all [LSTask.isWarn, dcsrchProceed_task]

/-- Witness for C1: a concrete re-entry call on which both Wolfe
conditions hold is reported `CONVERGED`. -/
theorem dcsrch_conv_characterization_witness :
    (dcsrchStep ratSqrt (1/10) (1/5) (1/100) 0 10 LSTask.fg
      { brackt := false, stage := 1, ginit := -1, gtest := -(1/10),
        gx := -1, gy := -1, finit := 0, fx := 0, fy := 0, stx := 0,
        sty := 0, stmin := 0, stmax := 3, width := 19/2, width1 := 19 }
      (3/5) (-(1/10)) (1/10)).task = LSTask.conv :=
  (dcsrch_conv_characterization ratSqrt (1/10) (1/5) (1/100) 0 10
    { brackt := false, stage := 1, ginit := -1, gtest := -(1/10),
      gx := -1, gy := -1, finit := 0, fx := 0, fy := 0, stx := 0,
      sty := 0, stmin := 0, stmax := 3, width := 19/2, width1 := 19 }
    (3/5) (-(1/10)) (1/10) (by norm_num)).1.mpr
    ⟨by norm_num, by norm_num [abs_of_nonneg]⟩

/-! ## Claim C2 -/

/-- Counterexample to C2: a re-entry call on which both the rounding
warning condition and the xtol warning condition hold and convergence
fails; the source's sequential `if`s make the returned status
`WARN_XTOL`, not the claimed first-priority `WARN_ROUNDING`. -/
theorem dcsrch_warn_priority_cex :
    ((1:ℚ) ≤ 1 ∨ (1:ℚ) ≥ 21/20) ∧
    (21/20 - 1 : ℚ) ≤ (1/10) * (21/20) ∧
    ¬((5:ℚ) ≤ 0 + 1 * (-(1/10))) ∧
    (dcsrchStep ratSqrt (1/10) (1/5) (1/10) 0 10 LSTask.fg
      { brackt := true, stage := 2, ginit := -1, gtest := -(1/10),
        gx := -1, gy := -1, finit := 0, fx := 0, fy := 0, stx := 1,
        sty := 21/20, stmin := 1, stmax := 21/20, width := 1,
        width1 := 2 } 1 5 0).task = LSTask.warnXtol ∧
    LSTask.warnXtol ≠ LSTask.warnRounding := by
  have ht : taskAfterTests (1/5) (1/10) 0 10 LSTask.fg
      { brackt := true, stage := 2, ginit := -1, gtest := -(1/10),
        gx := -1, gy := -1, finit := 0, fx := 0, fy := 0, stx := 1,
        sty := 21/20, stmin := 1, stmax := 21/20, width := 1,
        width1 := 2 } 1 5 0 (-(1/10)) = LSTask.warnXtol := by
    norm_num [taskAfterTests]
  refine ⟨by norm_num, by norm_num, by norm_num, ?_, by decide⟩
  norm_num [dcsrchStep, ht, LSTask.isWarn]

/-- Claim C2 (amended): on a non-`START` call where convergence fails
and warning conditions hold, the returned status is the LAST holding
condition of the source's sequential tests — equivalently the first
holding condition in the priority order `WARN_STPMIN`, `WARN_STPMAX`,
`WARN_XTOL`, `WARN_ROUNDING` (the reverse of the claimed order). -/
theorem dcsrch_warn_last_wins (sq : ℚ → ℚ)
    (ftol gtol xtol stpmin stpmax : ℚ) (s : LSState) (stp f g : ℚ)
    (hconv : ¬(f ≤ s.finit + stp * s.gtest ∧ |g| ≤ gtol * (-s.ginit)))
    (hW :
      ((s.brackt = true ∧ (stp ≤ s.stmin ∨ stp ≥ s.stmax)) ∧
        (s.brackt = true ∧ s.stmax - s.stmin ≤ xtol * s.stmax)) ∨
      ((s.brackt = true ∧ (stp ≤ s.stmin ∨ stp ≥ s.stmax)) ∧
        (stp = stpmax ∧ f ≤ s.finit + stp * s.gtest ∧ g ≤ s.gtest)) ∨
      ((s.brackt = true ∧ (stp ≤ s.stmin ∨ stp ≥ s.stmax)) ∧
        (stp = stpmin ∧ (f > s.finit + stp * s.gtest ∨ g ≥ s.gtest))) ∨
      ((s.brackt = true ∧ s.stmax - s.stmin ≤ xtol * s.stmax) ∧
        (stp = stpmax ∧ f ≤ s.finit + stp * s.gtest ∧ g ≤ s.gtest)) ∨
      ((s.brackt = true ∧ s.stmax - s.stmin ≤ xtol * s.stmax) ∧
        (stp = stpmin ∧ (f > s.finit + stp * s.gtest ∨ g ≥ s.gtest))) ∨
      ((stp = stpmax ∧ f ≤ s.finit + stp * s.gtest ∧ g ≤ s.gtest) ∧
        (stp = stpmin ∧ (f > s.finit + stp * s.gtest ∨ g ≥ s.gtest)))) :
    (dcsrchStep sq ftol gtol xtol stpmin stpmax LSTask.fg s stp f g).task =
      (if stp = stpmin ∧ (f > s.finit + stp * s.gtest ∨ g ≥ s.gtest) then
        LSTask.warnStpmin
       else if stp = stpmax ∧ f ≤ s.finit + stp * s.gtest ∧ g ≤ s.gtest then
        LSTask.warnStpmax
       else if s.brackt = true ∧ s.stmax - s.stmin ≤ xtol * s.stmax then
        LSTask.warnXtol
       else LSTask.warnRounding) := by
  have ht := taskAfterTests_of_not_conv gtol xtol stpmin stpmax LSTask.fg
    s stp f g (s.finit + stp * s.gtest) hconv
  simp only [dcsrchStep]
  rw [ht]
  split_ifs <;> simp_all [LSTask.isWarn, dcsrchProceed_task]

/-- Witness for C2 (amended): at the counterexample input, where both
the rounding and xtol conditions hold, the returned status is indeed
`WARN_XTOL` (the last holding test). -/
theorem dcsrch_warn_last_wins_witness :
    (dcsrchStep ratSqrt (1/10) (1/5) (1/10) 0 10 LSTask.fg
      { brackt := true, stage := 2, ginit := -1, gtest := -(1/10),
        gx := -1, gy := -1, finit := 0, fx := 0, fy := 0, stx := 1,
        sty := 21/20, stmin := 1, stmax := 21/20, width := 1,
        width1 := 2 } 1 5 0).task = LSTask.warnXtol := by
  have h := dcsrch_warn_last_wins ratSqrt (1/10) (1/5) (1/10) 0 10
    { brackt := true, stage := 2, ginit := -1, gtest := -(1/10),
      gx := -1, gy := -1, finit := 0, fx := 0, fy := 0, stx := 1,
      sty := 21/20, stmin := 1, stmax := 21/20, width := 1,
      width1 := 2 } 1 5 0 (by norm_num)
    (Or.inl ⟨⟨rfl, by norm_num⟩, ⟨rfl, by norm_num⟩⟩)
  rw [h]
  norm_num

/-! ## Claim C5 -/

/-- Claim C5: the interval update of `dcstep` preserves the
best-endpoint invariant: under the documented preconditions, if
`fx ≤ fy` holds on entry whenever bracketed, then it holds on exit
whenever the exit bracketed flag is set.  Moreover: if `fp > fx` then
`sty` takes `stp` (with `fy' = fp`, `fx' = fx` unchanged); otherwise
`stx` takes `stp` (with `fx' = fp ≤ fx`), the old `stx` moving to
`sty` exactly when the derivatives have opposite signs
(`sgnd = dp·sign(dx) < 0`). -/
theorem dcstep_interval_invariant (sq : ℚ → ℚ)
    (stx fx dx sty fy dy stp fp dp : ℚ) (brackt : Bool)
    (stpmin stpmax : ℚ) (o : DCStepOut)
    (ho : o = dcstep sq stx fx dx sty fy dy stp fp dp brackt stpmin stpmax)
    (hbr : brackt = true → (min stx sty < stp ∧ stp < max stx sty))
    (hdx : dx * (stp - stx) < 0)
    (hmm : stpmin ≤ stpmax)
    (hfxy : brackt = true → fx ≤ fy) :
    (o.brackt = true → o.fx ≤ o.fy) ∧
    (fp > fx → o.stx = stx ∧ o.fx = fx ∧ o.sty = stp ∧ o.fy = fp ∧
      o.brackt = true) ∧
    (¬(fp > fx) → o.stx = stp ∧ o.fx = fp ∧ o.fx ≤ fx ∧
      (dp * (dx / |dx|) < 0 → o.sty = stx ∧ o.fy = fx ∧ o.brackt = true) ∧
      (¬(dp * (dx / |dx|) < 0) → o.sty = sty ∧ o.fy = fy ∧
        o.brackt = brackt)) := by
  subst ho
  simp only [dcstep]
  split_ifs with h1 h2
  · exact ⟨fun _ => le_of_lt h1, fun _ => ⟨rfl, rfl, rfl, rfl, rfl⟩,
      fun h => absurd h1 h⟩
  · exact ⟨fun _ => not_lt.mp h1, fun h => absurd h h1,
      fun _ => ⟨rfl, rfl, not_lt.mp h1, fun _ => ⟨rfl, rfl, rfl⟩,
        fun h => absurd h2 h⟩⟩
  · exact ⟨fun hb => le_trans (not_lt.mp h1) (hfxy hb),
      fun h => absurd h h1,
      fun _ => ⟨rfl, rfl, not_lt.mp h1, fun h => absurd h h2,
        fun _ => ⟨rfl, rfl, rfl⟩⟩⟩

/-- Witness for C5: a concrete unbracketed `dcstep` call with a higher
trial value; `sty` takes the trial step and `fy` its value. -/
theorem dcstep_interval_invariant_witness :
    (dcstep ratSqrt 0 0 (-1) 0 0 (-1) 1 2 0 false 0 3).sty = 1 ∧
    (dcstep ratSqrt 0 0 (-1) 0 0 (-1) 1 2 0 false 0 3).fy = 2 := by
  have h := (dcstep_interval_invariant ratSqrt 0 0 (-1) 0 0 (-1) 1 2 0
    false 0 3 _ rfl (by simp) (by norm_num) (by norm_num) (by simp)).2.1
    (by norm_num)
  exact ⟨h.2.2.1, h.2.2.2.1⟩

/-! ## Claim C4 -/

/-- Claim C4: in Case 3 of `dcstep` (`fp ≤ fx`, `sgnd ≥ 0`,
`|dp| < |dx|`) the trial step is exactly the spec's description
(`case3StepSpec`): cubic with clamped discriminant
`max 0 ((θ/s)² − (dx/s)(dp/s))`, fallback to `stpmax`/`stpmin` by
direction when `r ≥ 0` or `gamma = 0`, the closer of cubic and secant
with the 66% projection toward `sty` when bracketed, and the farther
one clamped into `[stpmin, stpmax]` when not bracketed. -/
theorem dcstep_case3_step (sq : ℚ → ℚ) (stx fx dx sty fy dy stp fp dp : ℚ)
    (brackt : Bool) (stpmin stpmax : ℚ)
    (h1 : ¬(fp > fx)) (h2 : ¬(dp * (dx / |dx|) < 0)) (h3 : |dp| < |dx|) :
    dcstepStpf sq stx fx dx sty fy dy stp fp dp brackt stpmin stpmax =
      case3StepSpec sq stx fx dx sty stp fp dp brackt stpmin stpmax := by
  have hc : ∀ r gamma : ℚ, (0 ≤ r ∨ gamma = 0) ↔ ¬(r < 0 ∧ gamma ≠ 0) := by
    intro r gamma
    rw [not_and_or, not_lt, not_ne_iff]
  simp only [dcstepStpf, case3StepSpec]
  rw [if_neg h1, if_neg h2, if_pos h3]
  simp only [hc, ite_not]

/-- Witness for C4: a concrete Case-3 input on which the source step
and the spec's formula agree. -/
theorem dcstep_case3_step_witness :
    dcstepStpf ratSqrt 0 0 (-1) 1 0 0 (1/2) (-(1/4)) (-(1/2)) false 0 3 =
      case3StepSpec ratSqrt 0 0 (-1) 1 (1/2) (-(1/4)) (-(1/2)) false 0 3 :=
  dcstep_case3_step ratSqrt 0 0 (-1) 1 0 0 (1/2) (-(1/4)) (-(1/2)) false 0 3
    (by norm_num) (by norm_num [abs_of_nonpos]) (by norm_num [abs_of_nonpos])

/-! ## Claim C10 -/

/-- Claim C10: under the documented precondition `dx·(stp−stx) < 0`, the
denominators of the divisions `dx/|dx|` (in `sgnd`, evaluated
unconditionally on entry of `dcstep`) and `(fx−fp)/(stp−stx)` (in
`theta`) are nonzero; and since `dcstep` has no guard of its own, an
input with `dx = 0` reaches the division with denominator `|dx| = 0`
while `dcstep` still computes a result (here the Case-4 jump to
`stpmax`). -/
theorem dcstep_division_denominators (stx dx stp : ℚ)
    (h : dx * (stp - stx) < 0) :
    (|dx| ≠ 0 ∧ stp - stx ≠ 0) ∧
    (|(0:ℚ)| = 0 ∧
      (dcstep ratSqrt 0 0 0 0 0 0 1 (-1) 1 false 0 2).stp = 2) := by
  constructor
  · constructor
    · intro h0
      rw [abs_eq_zero] at h0
      rw [h0, zero_mul] at h
      exact lt_irrefl 0 h
    · intro h0
      rw [h0, mul_zero] at h
      exact lt_irrefl 0 h
  · refine ⟨abs_zero, ?_⟩
    norm_num [dcstep, dcstepStpf, abs_of_nonneg, abs_of_nonpos]

/-- Witness for C10: the precondition holds at `dx = −1`, `stp = 1`,
`stx = 0`, and there the denominators are nonzero. -/
theorem dcstep_division_denominators_witness :
    (|(-1:ℚ)| ≠ 0 ∧ (1:ℚ) - 0 ≠ 0) ∧
    (|(0:ℚ)| = 0 ∧
      (dcstep ratSqrt 0 0 0 0 0 0 1 (-1) 1 false 0 2).stp = 2) :=
  dcstep_division_denominators 0 (-1) 1 (by norm_num)

/-! ## Claim C3 -/

/-- Counterexample to C3: the input `stx=0, dx=1, stp=1` violates the
precondition (`dx·(stp−stx) = 1 ≥ 0`), yet `dcstep` — which performs no
precondition check and returns no error flag — proceeds and returns
modified values (`stp` becomes `−1/9`, `sty` becomes `1`, `brackt`
flips to `true`), not its inputs unchanged. -/
theorem dcstep_no_guard_cex :
    ((1:ℚ) * (1 - 0) ≥ 0) ∧
    (dcstep ratSqrt 0 0 1 0 0 0 1 2 0 false 0 2).stp = -(1/9) ∧
    (dcstep ratSqrt 0 0 1 0 0 0 1 2 0 false 0 2).sty = 1 ∧
    (dcstep ratSqrt 0 0 1 0 0 0 1 2 0 false 0 2).brackt = true ∧
    ((-(1/9) : ℚ) ≠ 1) := by
  refine ⟨by norm_num, ?_, ?_, ?_, by norm_num⟩ <;>
    norm_num [dcstep, dcstepStpf, ratSqrt, abs_of_nonneg, abs_of_nonpos]

/-- Claim C3 (amended): it is the `mcstep` variant that checks the
preconditions; for every violating input it returns all of its inputs
unchanged together with the error flag `info = 0`.  The `dcstep`
routine of the pyx source performs no such check (see the
counterexample), and the `mcsrch` driver maps a zero flag to its
rounding-errors warning, not to an input error. -/
theorem mcstep_guard_unchanged (sq : ℚ → ℚ)
    (stx fx dx sty fy dy stp fp dp : ℚ) (brackt : Bool)
    (stpmin stpmax : ℚ)
    (h : (brackt = true ∧ (stp ≤ min stx sty ∨ stp ≥ max stx sty)) ∨
      dx * (stp - stx) ≥ 0 ∨ stpmax < stpmin) :
    mcstep sq stx fx dx sty fy dy stp fp dp brackt stpmin stpmax =
      { stx := stx, fx := fx, dx := dx, sty := sty, fy := fy, dy := dy,
        stp := stp, fp := fp, dp := dp, brackt := brackt, info := 0 } := by
  unfold mcstep
  rw [if_pos h]

/-- Witness for C3 (amended): on the same violating input that `dcstep`
mangles, `mcstep` returns everything unchanged with `info = 0`. -/
theorem mcstep_guard_unchanged_witness :
    mcstep ratSqrt 0 0 1 0 0 0 1 2 0 false 0 2 =
      { stx := 0, fx := 0, dx := 1, sty := 0, fy := 0, dy := 0,
        stp := 1, fp := 2, dp := 0, brackt := false, info := 0 } :=
  mcstep_guard_unchanged ratSqrt 0 0 1 0 0 0 1 2 0 false 0 2
    (Or.inr (Or.inl (by norm_num)))

/-! ## Claim C9 -/

/-- Claim C9 exhibits a bug in `mcsrch`: on a call of its direct
(else) branch where `mcstep` moves the endpoint (`fy` output `1`),
`mcsrch` stores the stale entry value `fy = 0`, because the fifth
destructuring target at part_004 line 494 is the unused local `dy`
rather than `fy`; the authoritative `dcstep`-based update of `dcsrch`
yields `fy = 1` on the same data. -/
theorem mcsrch_fy_stale :
    (mcstep ratSqrt 0 0 (-1) 0 0 (-1) (3/5) 1 0 false 0 3).fy = 1 ∧
    (mcsrchDirectBranch ratSqrt
      { stx := 0, fx := 0, dgx := -1, sty := 0, fy := 0, dgy := -1,
        stp := 3/5, f := 1, dg := 0, brackt := false, infoc := 1 }
      0 3).fy = 0 ∧
    (dcstep ratSqrt 0 0 (-1) 0 0 (-1) (3/5) 1 0 false 0 3).fy = 1 ∧
    ((0:ℚ) ≠ 1) := by
  refine ⟨?_, rfl, ?_, by norm_num⟩
  · norm_num [mcstep, ratSqrt, abs_of_nonneg, abs_of_nonpos]
  · norm_num [dcstep, dcstepStpf, ratSqrt, abs_of_nonneg, abs_of_nonpos]

/-! ## Claim C8 -/

theorem dcsrchProceed_bounds (xtol stpmin stpmax : ℚ) (s : LSState)
    (stage' : ℕ) (d : DCStepOut) (h : stpmin ≤ stpmax) :
    (stpmin ≤ (dcsrchProceed xtol stpmin stpmax s stage' d).stp ∧
      (dcsrchProceed xtol stpmin stpmax s stage' d).stp ≤ stpmax) ∨
    (dcsrchProceed xtol stpmin stpmax s stage' d).stp = d.stx := by
  simp only [dcsrchProceed]
  split_ifs <;>
    first
      | exact Or.inr rfl
      | exact Or.inl ⟨le_min (le_max_right _ _) h, min_le_right _ _⟩

/-- Claim C8 (amended): a trial step returned with status `FG`
(`NEED_EVAL`) by a subsequent `dcsrch` call either lies in
`[stpmin, stpmax]` — the clamp itself always lands there — or equals
the saved best step `stx`, which the final replacement can install even
when `stx` is outside the user bounds (the counterexample drives
`stx = 0 < stpmin` with an accepted `START`). -/
theorem dcsrch_step_bounds (sq : ℚ → ℚ) (ftol gtol xtol stpmin stpmax : ℚ)
    (taskIn : LSTask) (s : LSState) (stp f g : ℚ) (h : stpmin ≤ stpmax) :
    (dcsrchStep sq ftol gtol xtol stpmin stpmax taskIn s stp f g).task =
        LSTask.fg →
      (stpmin ≤ (dcsrchStep sq ftol gtol xtol stpmin stpmax taskIn s stp f g).stp ∧
        (dcsrchStep sq ftol gtol xtol stpmin stpmax taskIn s stp f g).stp ≤
          stpmax) ∨
      (dcsrchStep sq ftol gtol xtol stpmin stpmax taskIn s stp f g).stp =
        (dcsrchStep sq ftol gtol xtol stpmin stpmax taskIn s stp f g).state.stx := by
  simp only [dcsrchStep]
  by_cases hterm :
      ((taskAfterTests gtol xtol stpmin stpmax taskIn s stp f g
          (s.finit + stp * s.gtest)).isWarn = true ∨
        taskAfterTests gtol xtol stpmin stpmax taskIn s stp f g
          (s.finit + stp * s.gtest) = LSTask.conv)
  · rw [if_pos hterm]
    intro htask
    dsimp only at htask
    rw [htask] at hterm
    simp [LSTask.isWarn] at hterm
  · rw [if_neg hterm]
    intro _
    rw [dcsrchProceed_state_stx]
    exact dcsrchProceed_bounds xtol stpmin stpmax s _ _ h

/-- Witness for C8 (amended): a concrete re-entry call; the returned
`FG` step is in bounds or equals the stored best step. -/
theorem dcsrch_step_bounds_witness :
    ((0:ℚ) ≤ (dcsrchStep ratSqrt (1/10) (1/5) (1/100) 0 10 LSTask.fg
      { brackt := false, stage := 1, ginit := -1, gtest := -(1/10),
        gx := -1, gy := -1, finit := 0, fx := 0, fy := 0, stx := 0,
        sty := 0, stmin := 0, stmax := 3, width := 19/2, width1 := 19 }
      (3/5) 1 0).stp ∧
      (dcsrchStep ratSqrt (1/10) (1/5) (1/100) 0 10 LSTask.fg
      { brackt := false, stage := 1, ginit := -1, gtest := -(1/10),
        gx := -1, gy := -1, finit := 0, fx := 0, fy := 0, stx := 0,
        sty := 0, stmin := 0, stmax := 3, width := 19/2, width1 := 19 }
      (3/5) 1 0).stp ≤ 10) ∨
    (dcsrchStep ratSqrt (1/10) (1/5) (1/100) 0 10 LSTask.fg
      { brackt := false, stage := 1, ginit := -1, gtest := -(1/10),
        gx := -1, gy := -1, finit := 0, fx := 0, fy := 0, stx := 0,
        sty := 0, stmin := 0, stmax := 3, width := 19/2, width1 := 19 }
      (3/5) 1 0).stp =
    (dcsrchStep ratSqrt (1/10) (1/5) (1/100) 0 10 LSTask.fg
      { brackt := false, stage := 1, ginit := -1, gtest := -(1/10),
        gx := -1, gy := -1, finit := 0, fx := 0, fy := 0, stx := 0,
        sty := 0, stmin := 0, stmax := 3, width := 19/2, width1 := 19 }
      (3/5) 1 0).state.stx := by
  have hdc : dcstep ratSqrt 0 0 (-1) 0 0 (-1) (3/5) 1 0 false 0 3 =
      { stx := 0, fx := 0, dx := -1, sty := 3/5, fy := 1, dy := 0,
        stp := 3/65, brackt := true } := by
    norm_num [dcstep, dcstepStpf, ratSqrt, abs_of_nonneg, abs_of_nonpos]
  have hi : interpState ratSqrt
      { brackt := false, stage := 1, ginit := -1, gtest := -(1/10),
        gx := -1, gy := -1, finit := 0, fx := 0, fy := 0, stx := 0,
        sty := 0, stmin := 0, stmax := 3, width := 19/2, width1 := 19 }
      1 (-(3/50)) (3/5) 1 0 =
      { stx := 0, fx := 0, dx := -1, sty := 3/5, fy := 1, dy := 0,
        stp := 3/65, brackt := true } := by
    norm_num [interpState, hdc]
  have ht : taskAfterTests (1/5) (1/100) 0 10 LSTask.fg
      { brackt := false, stage := 1, ginit := -1, gtest := -(1/10),
        gx := -1, gy := -1, finit := 0, fx := 0, fy := 0, stx := 0,
        sty := 0, stmin := 0, stmax := 3, width := 19/2, width1 := 19 }
      (3/5) 1 0 (-(3/50)) = LSTask.fg := by
    norm_num [taskAfterTests]
  have htask : (dcsrchStep ratSqrt (1/10) (1/5) (1/100) 0 10 LSTask.fg
      { brackt := false, stage := 1, ginit := -1, gtest := -(1/10),
        gx := -1, gy := -1, finit := 0, fx := 0, fy := 0, stx := 0,
        sty := 0, stmin := 0, stmax := 3, width := 19/2, width1 := 19 }
      (3/5) 1 0).task = LSTask.fg := by
    norm_num [dcsrchStep, ht, hi, LSTask.isWarn, dcsrchProceed]
    rfl
  exact dcsrch_step_bounds ratSqrt (1/10) (1/5) (1/100) 0 10 LSTask.fg
    { brackt := false, stage := 1, ginit := -1, gtest := -(1/10),
      gx := -1, gy := -1, finit := 0, fx := 0, fy := 0, stx := 0,
      sty := 0, stmin := 0, stmax := 3, width := 19/2, width1 := 19 }
    (3/5) 1 0 (by norm_num) htask

/-- Counterexample to C8 as stated: with `stpmin = 1/2`, `xtol = 2`
(both accepted at `START`), the second call brackets with best step
`stx = 0`, the xtol replacement installs it, and `dcsrch` returns the
trial step `0 < stpmin` with status `FG` (`NEED_EVAL`). -/
theorem dcsrch_bounds_cex :
    (dcsrchStart (3/5) 0 (-1) (1/10) (1/5) 2 (1/2) 10).task = LSTask.fg ∧
    (dcsrchStart (3/5) 0 (-1) (1/10) (1/5) 2 (1/2) 10).st = some
      { brackt := false, stage := 1, ginit := -1, gtest := -(1/10),
        gx := -1, gy := -1, finit := 0, fx := 0, fy := 0, stx := 0,
        sty := 0, stmin := 0, stmax := 3, width := 19/2, width1 := 19 } ∧
    (dcsrchStep ratSqrt (1/10) (1/5) 2 (1/2) 10 LSTask.fg
      { brackt := false, stage := 1, ginit := -1, gtest := -(1/10),
        gx := -1, gy := -1, finit := 0, fx := 0, fy := 0, stx := 0,
        sty := 0, stmin := 0, stmax := 3, width := 19/2, width1 := 19 }
      (3/5) 1 0).task = LSTask.fg ∧
    (dcsrchStep ratSqrt (1/10) (1/5) 2 (1/2) 10 LSTask.fg
      { brackt := false, stage := 1, ginit := -1, gtest := -(1/10),
        gx := -1, gy := -1, finit := 0, fx := 0, fy := 0, stx := 0,
        sty := 0, stmin := 0, stmax := 3, width := 19/2, width1 := 19 }
      (3/5) 1 0).stp = 0 ∧
    ¬((1/2 : ℚ) ≤ 0) := by
  have hd : dcstep ratSqrt 0 0 (-1) 0 0 (-1) (3/5) 1 0 false 0 3 =
      { stx := 0, fx := 0, dx := -1, sty := 3/5, fy := 1, dy := 0,
        stp := 3/65, brackt := true } := by
    norm_num [dcstep, dcstepStpf, ratSqrt, abs_of_nonneg, abs_of_nonpos]
  have hi : interpState ratSqrt
      { brackt := false, stage := 1, ginit := -1, gtest := -(1/10),
        gx := -1, gy := -1, finit := 0, fx := 0, fy := 0, stx := 0,
        sty := 0, stmin := 0, stmax := 3, width := 19/2, width1 := 19 }
      1 (-(3/50)) (3/5) 1 0 =
      { stx := 0, fx := 0, dx := -1, sty := 3/5, fy := 1, dy := 0,
        stp := 3/65, brackt := true } := by
    norm_num [interpState, hd]
  have ht : taskAfterTests (1/5) 2 (1/2) 10 LSTask.fg
      { brackt := false, stage := 1, ginit := -1, gtest := -(1/10),
        gx := -1, gy := -1, finit := 0, fx := 0, fy := 0, stx := 0,
        sty := 0, stmin := 0, stmax := 3, width := 19/2, width1 := 19 }
      (3/5) 1 0 (-(3/50)) = LSTask.fg := by
    norm_num [taskAfterTests]
  refine ⟨?_, ?_, ?_, ?_, by norm_num⟩
  · norm_num [dcsrchStart, startChecks, LSTask.isError]
  · norm_num [dcsrchStart, startChecks, LSTask.isError]
  · norm_num [dcsrchStep, ht, hi, LSTask.isWarn, dcsrchProceed]
    rfl
  · norm_num [dcsrchStep, ht, hi, LSTask.isWarn, dcsrchProceed,
      abs_of_nonneg, abs_of_nonpos, min_def, max_def]
    rfl

/-! ## Claim C6 -/

theorem dcsrchProceed_widths (xtol stpmin stpmax : ℚ) (s : LSState)
    (stage' : ℕ) (d : DCStepOut) :
    ((dcsrchProceed xtol stpmin stpmax s stage' d).state.width1 =
      if d.brackt = true then s.width else s.width1) ∧
    ((dcsrchProceed xtol stpmin stpmax s stage' d).state.width =
      if d.brackt = true then |d.sty - d.stx| else s.width) :=
  ⟨rfl, rfl⟩

theorem dcsrchProceed_midpoint (xtol stpmin stpmax : ℚ) (s : LSState)
    (stage' : ℕ) (d : DCStepOut)
    (hb : d.brackt = true) (hg : |d.sty - d.stx| ≥ 0.66 * s.width1)
    (h1 : stpmin ≤ d.stx + 0.5 * (d.sty - d.stx))
    (h2 : d.stx + 0.5 * (d.sty - d.stx) ≤ stpmax)
    (h3 : ¬((d.stx + 0.5 * (d.sty - d.stx) ≤ min d.stx d.sty ∨
        d.stx + 0.5 * (d.sty - d.stx) ≥ max d.stx d.sty) ∨
      max d.stx d.sty - min d.stx d.sty ≤ xtol * max d.stx d.sty)) :
    (dcsrchProceed xtol stpmin stpmax s stage' d).stp =
      d.stx + 0.5 * (d.sty - d.stx) := by
  simp only [dcsrchProceed]
  rw [if_pos (⟨hb, hg⟩ :
    d.brackt = true ∧ |d.sty - d.stx| ≥ 0.66 * s.width1)]
  rw [if_pos hb, if_pos hb]
  rw [max_eq_left h1, min_eq_left h2]
  rw [if_neg (fun hrep => by
    rcases hrep with ⟨_, hx⟩ | ⟨_, hy⟩
    · exact h3 (Or.inl hx)
    · exact h3 (Or.inr hy))]

/-- Counterexample to C6: a non-terminal subsequent call on which the
interval is not bracketed after `dcstep`; the width updates are
skipped (`width` stays `100`, `width1` stays `200`), contradicting
"the updates are always performed" on every such call. -/
theorem dcsrch_width_update_cex :
    (dcsrchStep ratSqrt (1/10) (1/5) (1/100) 0 10 LSTask.fg
      { brackt := false, stage := 2, ginit := -1, gtest := -(1/10),
        gx := -1, gy := -1, finit := 0, fx := 0, fy := 0, stx := 0,
        sty := 0, stmin := 0, stmax := 3, width := 100, width1 := 200 }
      (3/5) (-(1/2)) (-1)).task = LSTask.fg ∧
    (dcsrchStep ratSqrt (1/10) (1/5) (1/100) 0 10 LSTask.fg
      { brackt := false, stage := 2, ginit := -1, gtest := -(1/10),
        gx := -1, gy := -1, finit := 0, fx := 0, fy := 0, stx := 0,
        sty := 0, stmin := 0, stmax := 3, width := 100, width1 := 200 }
      (3/5) (-(1/2)) (-1)).state.width = 100 ∧
    (dcsrchStep ratSqrt (1/10) (1/5) (1/100) 0 10 LSTask.fg
      { brackt := false, stage := 2, ginit := -1, gtest := -(1/10),
        gx := -1, gy := -1, finit := 0, fx := 0, fy := 0, stx := 0,
        sty := 0, stmin := 0, stmax := 3, width := 100, width1 := 200 }
      (3/5) (-(1/2)) (-1)).state.width1 = 200 ∧
    |(dcsrchStep ratSqrt (1/10) (1/5) (1/100) 0 10 LSTask.fg
      { brackt := false, stage := 2, ginit := -1, gtest := -(1/10),
        gx := -1, gy := -1, finit := 0, fx := 0, fy := 0, stx := 0,
        sty := 0, stmin := 0, stmax := 3, width := 100, width1 := 200 }
      (3/5) (-(1/2)) (-1)).state.sty -
     (dcsrchStep ratSqrt (1/10) (1/5) (1/100) 0 10 LSTask.fg
      { brackt := false, stage := 2, ginit := -1, gtest := -(1/10),
        gx := -1, gy := -1, finit := 0, fx := 0, fy := 0, stx := 0,
        sty := 0, stmin := 0, stmax := 3, width := 100, width1 := 200 }
      (3/5) (-(1/2)) (-1)).state.stx| = 3/5 ∧
    ((100:ℚ) ≠ 3/5) := by
  have hd : dcstep ratSqrt 0 0 (-1) 0 0 (-1) (3/5) (-(1/2)) (-1) false 0 3 =
      { stx := 3/5, fx := -(1/2), dx := -1, sty := 0, fy := 0, dy := -1,
        stp := 3, brackt := false } := by
    norm_num [dcstep, dcstepStpf, ratSqrt, abs_of_nonneg, abs_of_nonpos]
  have hi : interpState ratSqrt
      { brackt := false, stage := 2, ginit := -1, gtest := -(1/10),
        gx := -1, gy := -1, finit := 0, fx := 0, fy := 0, stx := 0,
        sty := 0, stmin := 0, stmax := 3, width := 100, width1 := 200 }
      2 (-(3/50)) (3/5) (-(1/2)) (-1) =
      { stx := 3/5, fx := -(1/2), dx := -1, sty := 0, fy := 0, dy := -1,
        stp := 3, brackt := false } := by
    norm_num [interpState, hd]
  have ht : taskAfterTests (1/5) (1/100) 0 10 LSTask.fg
      { brackt := false, stage := 2, ginit := -1, gtest := -(1/10),
        gx := -1, gy := -1, finit := 0, fx := 0, fy := 0, stx := 0,
        sty := 0, stmin := 0, stmax := 3, width := 100, width1 := 200 }
      (3/5) (-(1/2)) (-1) (-(3/50)) = LSTask.fg := by
    norm_num [taskAfterTests, abs_of_nonpos]
  refine ⟨?_, ?_, ?_, ?_, by norm_num⟩ <;>
    norm_num [dcsrchStep, ht, hi, LSTask.isWarn, dcsrchProceed,
      abs_of_nonneg, abs_of_nonpos, min_def, max_def] <;>
    rw [if_neg (fun h => LSTask.noConfusion h :
      ¬(LSTask.fg = LSTask.conv))] <;>
    norm_num [abs_of_nonpos]

/-- Claim C6 (amended): on a non-terminal subsequent call of `dcsrch`,
when the post-`dcstep` interval is bracketed, the updates
`width1 ← width` and `width ← |sty − stx|` are always performed and
the trial step is overridden with the midpoint
`stx + 0.5·(sty − stx)` whenever `|sty − stx| ≥ 0.66·width1` (shown
here when the later clamp and replacement do not interfere); when the
interval is not bracketed, `width` and `width1` are left unchanged
(the updates are not performed on every non-terminal call). -/
theorem dcsrch_bisection_guard (sq : ℚ → ℚ)
    (ftol gtol xtol stpmin stpmax : ℚ) (s : LSState) (stp f g : ℚ)
    (stage' : ℕ) (d : DCStepOut) (r : StepResult)
    (hstage : stage' =
      if s.stage = 1 ∧ f ≤ s.finit + stp * s.gtest ∧ g ≥ 0 then 2
      else s.stage)
    (hd : d = interpState sq s stage' (s.finit + stp * s.gtest) stp f g)
    (hr : r = dcsrchStep sq ftol gtol xtol stpmin stpmax LSTask.fg s stp f g)
    (hnt : ¬((taskAfterTests gtol xtol stpmin stpmax LSTask.fg s stp f g
        (s.finit + stp * s.gtest)).isWarn = true ∨
      taskAfterTests gtol xtol stpmin stpmax LSTask.fg s stp f g
        (s.finit + stp * s.gtest) = LSTask.conv)) :
    r.task = LSTask.fg ∧
    (d.brackt = true → r.state.width1 = s.width ∧
      r.state.width = |d.sty - d.stx|) ∧
    (d.brackt = false → r.state.width1 = s.width1 ∧
      r.state.width = s.width) ∧
    (d.brackt = true → |d.sty - d.stx| ≥ 0.66 * s.width1 →
      stpmin ≤ d.stx + 0.5 * (d.sty - d.stx) →
      d.stx + 0.5 * (d.sty - d.stx) ≤ stpmax →
      ¬((d.stx + 0.5 * (d.sty - d.stx) ≤ min d.stx d.sty ∨
          d.stx + 0.5 * (d.sty - d.stx) ≥ max d.stx d.sty) ∨
        max d.stx d.sty - min d.stx d.sty ≤ xtol * max d.stx d.sty) →
      r.stp = d.stx + 0.5 * (d.sty - d.stx)) := by
  subst hstage
  subst hd
  have hr' : r = dcsrchProceed xtol stpmin stpmax s
      (if s.stage = 1 ∧ f ≤ s.finit + stp * s.gtest ∧ g ≥ 0 then 2
       else s.stage)
      (interpState sq s
        (if s.stage = 1 ∧ f ≤ s.finit + stp * s.gtest ∧ g ≥ 0 then 2
         else s.stage) (s.finit + stp * s.gtest) stp f g) := by
    rw [hr]
    simp only [dcsrchStep]
    rw [if_neg hnt]
  subst hr'
  refine ⟨dcsrchProceed_task _ _ _ _ _ _, fun hb => ?_, fun hb => ?_,
    fun hb hg h1 h2 h3 => dcsrchProceed_midpoint _ _ _ _ _ _ hb hg h1 h2 h3⟩
  · rw [(dcsrchProceed_widths xtol stpmin stpmax s _ _).1,
      (dcsrchProceed_widths xtol stpmin stpmax s _ _).2, if_pos hb,
      if_pos hb]
    exact ⟨rfl, rfl⟩
  · rw [(dcsrchProceed_widths xtol stpmin stpmax s _ _).1,
      (dcsrchProceed_widths xtol stpmin stpmax s _ _).2, if_neg, if_neg]
    · exact ⟨rfl, rfl⟩
    · rw [hb]; exact fun h => Bool.false_ne_true h
    · rw [hb]; exact fun h => Bool.false_ne_true h

/-- Witness for C6 (amended): a concrete non-terminal call that
brackets; the guard theorem applies and the returned task is `FG`. -/
theorem dcsrch_bisection_guard_witness :
    (dcsrchStep ratSqrt (1/10) (1/5) (1/100) 0 10 LSTask.fg
      { brackt := false, stage := 1, ginit := -1, gtest := -(1/10),
        gx := -1, gy := -1, finit := 0, fx := 0, fy := 0, stx := 0,
        sty := 0, stmin := 0, stmax := 3, width := 19/2, width1 := 19 }
      (3/5) 1 0).task = LSTask.fg := by
  have hdc : dcstep ratSqrt 0 0 (-1) 0 0 (-1) (3/5) 1 0 false 0 3 =
      { stx := 0, fx := 0, dx := -1, sty := 3/5, fy := 1, dy := 0,
        stp := 3/65, brackt := true } := by
    norm_num [dcstep, dcstepStpf, ratSqrt, abs_of_nonneg, abs_of_nonpos]
  exact (dcsrch_bisection_guard ratSqrt (1/10) (1/5) (1/100) 0 10
    { brackt := false, stage := 1, ginit := -1, gtest := -(1/10),
      gx := -1, gy := -1, finit := 0, fx := 0, fy := 0, stx := 0,
      sty := 0, stmin := 0, stmax := 3, width := 19/2, width1 := 19 }
    (3/5) 1 0 1
    { stx := 0, fx := 0, dx := -1, sty := 3/5, fy := 1, dy := 0,
      stp := 3/65, brackt := true } _
    (by norm_num) (by norm_num [interpState, hdc]) rfl
    (by
      norm_num [taskAfterTests, LSTask.isWarn]
      exact fun h => LSTask.noConfusion h)).1
